import Mathlib

/-!
Shallow embedding of the ntfy client engine (package `client`: client.go and
config.go) and proofs about it.

Modelling conventions:
* Go byte strings are modelled as Lean `String`s (one `Char` per byte for the
  ASCII data the engine handles).
* `encoding/json` decoding of one line into a `*Message` is modelled by an
  arbitrary function `decode : String → DecodeOut`; `DecodeOut.nilPtr` is the
  documented Go behaviour of decoding the JSON document `null` into a pointer
  destination (the pointer is set to nil and no error is reported).
* `http.DefaultClient.Do` is modelled by an arbitrary function
  `net : Request → NetResult`.
* A Go panic (nil-pointer dereference) is modelled by `GoOutcome.panic`.
* `bufio.Scanner` over a response body is modelled by the list of lines it
  yields (`Response.lines`) together with its terminal error
  (`Response.scanErr`), which the scanned code may or may not inspect.
-/

/-- Result of a Go function returning `(value, error)`, with a third case for a
runtime panic. -/
inductive GoOutcome (ε α : Type) where
  | ok : α → GoOutcome ε α
  | err : ε → GoOutcome ε α
  | panic : GoOutcome ε α
deriving Repr, DecidableEq

/-- Attachment of a ntfy message (client.go); `Type'` models the Go field
`Type`, whose name is a Lean keyword. -/
structure Attachment where
  Name : String
  Type' : String
  Size : Int
  Expires : Int
  URL : String
  Owner : String
deriving Repr, DecidableEq

/-- A ntfy message (client.go), including the client-stamped fields
TopicURL, SubscriptionID and Raw. -/
structure Message where
  ID : String
  Event : String
  Time : Int
  Topic : String
  Message : String
  Title : String
  Priority : Int
  Tags : List String
  Click : String
  Icon : String
  Attachment : Option Attachment
  TopicURL : String
  SubscriptionID : String
  Raw : String
deriving Repr, DecidableEq

/-- Outcome of `json.NewDecoder(strings.NewReader(s)).Decode(&m)` for
`m : *Message`: a decode error, the documented null-into-pointer case (pointer
set to nil, no error), or a successfully decoded value. -/
inductive DecodeOut where
  | err : String → DecodeOut
  | nilPtr : DecodeOut
  | val : Message → DecodeOut

/-- The Go zero value of `Message`, which is what `encoding/json` starts from
when decoding into a freshly allocated value. -/
def zeroMessage : Message :=
  { ID := "", Event := "", Time := 0, Topic := "", Message := "", Title := ""
    Priority := 0, Tags := [], Click := "", Icon := "", Attachment := none
    TopicURL := "", SubscriptionID := "", Raw := "" }

/-- MessageEvent identifies a message event in the JSON stream (client.go). -/
def MessageEvent : String := "message"

/-- maxResponseBytes (client.go): response bodies are read capped at this many
bytes. -/
def maxResponseBytes : Nat := 4096

/-- Whitespace predicate of Go `unicode.IsSpace` (the code points of the
White_Space property). -/
def goIsSpace (c : Char) : Bool :=
  (9 ≤ c.toNat && c.toNat ≤ 13) || c.toNat = 32 || c.toNat = 0x85 ||
  c.toNat = 0xA0 || c.toNat = 0x1680 ||
  (0x2000 ≤ c.toNat && c.toNat ≤ 0x200A) ||
  c.toNat = 0x2028 || c.toNat = 0x2029 || c.toNat = 0x202F ||
  c.toNat = 0x205F || c.toNat = 0x3000

/-- Go `strings.TrimSpace`: drop leading and trailing white space. -/
def trimSpace (s : String) : String :=
  String.mk (((s.toList.dropWhile goIsSpace).reverse.dropWhile goIsSpace).reverse)

/-- Model of `io.ReadAll(io.LimitReader(body, maxResponseBytes))` on a body
whose bytes are `s`: the first `maxResponseBytes` bytes. -/
def capBody (s : String) : String :=
  String.mk (s.toList.take maxResponseBytes)

/-- Go strings.HasPrefix applied to `s` and `pat`: the first `len pat` bytes
of `s` equal `pat`. -/
def goStartsWith (s pat : String) : Bool :=
  decide (s.toList.take pat.toList.length = pat.toList)

/-- Go `strings.Contains topic "/"` for the one-character separator: the
string contains the character. -/
def goContainsChar (s : String) (c : Char) : Bool :=
  s.toList.contains c

/-- Character class of `topicRegex` (client.go): `[-_A-Za-z0-9]`. -/
def topicRegexChar (c : Char) : Bool :=
  c = '-' || c = '_' || ('A' ≤ c && c ≤ 'Z') || ('a' ≤ c && c ≤ 'z') ||
  ('0' ≤ c && c ≤ '9')

/-- topicRegex (client.go): `^[-_A-Za-z0-9]{1,64}$`. -/
def topicRegexMatch (s : String) : Bool :=
  1 ≤ s.toList.length && s.toList.length ≤ 64 && s.toList.all topicRegexChar

/-- DefaultBaseURL (config.go): base URL used to expand short topic names. -/
def DefaultBaseURL : String := "https://ntfy.sh"

/-- One subscription entry of the client Config (config.go). -/
structure Subscribe where
  Topic : String
  User : Option String
  Password : Option String
  Token : Option String
  Command : String
  If : List (String × String)

/-- Client Config (config.go). -/
structure Config where
  DefaultHost : String
  DefaultUser : String
  DefaultPassword : Option String
  DefaultToken : String
  DefaultCommand : String
  Subscribe : List Subscribe

/-- NewConfig (config.go): Config with default values. -/
def NewConfig : Config :=
  { DefaultHost := DefaultBaseURL, DefaultUser := "", DefaultPassword := none
    DefaultToken := "", DefaultCommand := "", Subscribe := [] }

/-- expandTopicURL (client.go): resolve a topic string against the config's
default host. -/
def expandTopicURL (c : Config) (topic : String) : Except String String :=
  if goStartsWith topic "http://" || goStartsWith topic "https://" then
    Except.ok topic
  else if goContainsChar topic '/' then
    Except.ok ("https://" ++ topic)
  else if !topicRegexMatch topic then
    Except.error ("invalid topic name: " ++ topic)
  else
    Except.ok (c.DefaultHost ++ "/" ++ topic)

/-- An outgoing HTTP request description (`http.Request` as far as the client
engine observes it). -/
structure Request where
  method : String
  url : String
  headers : List (String × String)
  query : List (String × String)
deriving Repr, DecidableEq

/-- A publish or subscribe option: a fallible mutation of the request
(`PublishOption` / `SubscribeOption`, both `func(*http.Request) error`). -/
def ReqOption : Type := Request → Except String Request

/-- The option-application loops of PublishReader and performSubscribeRequest
(client.go): apply each option in order, aborting at the first failure. -/
def applyOptions : List ReqOption → Request → Except String Request
  | [], req => Except.ok req
  | o :: os, req =>
    match o req with
    | Except.error e => Except.error e
    | Except.ok req' => applyOptions os req'

/-- An HTTP response as the client engine observes it: status code, the raw
body bytes available to `io.ReadAll` (with an optional read error), and the
line view of the body produced by `bufio.Scanner` (its yielded lines and its
terminal error, which `scanner.Err()` would report). -/
structure Response where
  statusCode : Nat
  body : String
  bodyReadErr : Option String
  lines : List String
  scanErr : Option String

/-- Result of `http.DefaultClient.Do`: a transport error or a response. -/
inductive NetResult where
  | err : String → NetResult
  | ok : Response → NetResult

/-- toMessage (client.go): decode one line into a `*Message`, then stamp
TopicURL, SubscriptionID and Raw on it. Decoding the JSON document `null`
leaves the pointer nil without an error, so the stamping assignment
dereferences nil and panics. -/
def toMessage (decode : String → DecodeOut) (s topicURL subscriptionID : String) :
    GoOutcome String Message :=
  match decode s with
  | DecodeOut.err e => GoOutcome.err e
  | DecodeOut.nilPtr => GoOutcome.panic
  | DecodeOut.val m =>
    GoOutcome.ok
      { m with TopicURL := topicURL, SubscriptionID := subscriptionID, Raw := s }

/-- How one stream read attempt ends: the server closed the stream and the
scan loop fell through (`return nil`), or an error was returned, or the
goroutine panicked. -/
inductive StreamEnd where
  | normal : StreamEnd
  | failed : String → StreamEnd
  | panicked : StreamEnd
deriving Repr, DecidableEq

/-- The scan loop of performSubscribeRequest (client.go, lines 329-341): decode
each line; a decode error aborts the loop with that error; a decoded message
whose Event is MessageEvent is sent to the sink; all other lines are dropped;
when the scanner stops, return nil without inspecting the scanner's error. -/
def runStream (decode : String → DecodeOut) (topicURL subscriptionID : String) :
    List String → List Message × StreamEnd
  | [] => ([], StreamEnd.normal)
  | line :: rest =>
    match toMessage decode line topicURL subscriptionID with
    | GoOutcome.err e => ([], StreamEnd.failed e)
    | GoOutcome.panic => ([], StreamEnd.panicked)
    | GoOutcome.ok m =>
      let r := runStream decode topicURL subscriptionID rest
      if m.Event = MessageEvent then (m :: r.1, r.2) else r

/-- The stamped messages decoded from the longest leading run of lines on which
`toMessage` succeeds (the lines the scan loop actually decodes). -/
def decodedLeading (decode : String → DecodeOut) (topicURL subscriptionID : String) :
    List String → List Message
  | [] => []
  | line :: rest =>
    match toMessage decode line topicURL subscriptionID with
    | GoOutcome.ok m => m :: decodedLeading decode topicURL subscriptionID rest
    | _ => []

/-- All lines decode successfully: the stamped messages, or `none` if some line
fails to decode (or decodes to a nil pointer). -/
def decodeAll (decode : String → DecodeOut) (topicURL subscriptionID : String) :
    List String → Option (List Message)
  | [] => some []
  | line :: rest =>
    match toMessage decode line topicURL subscriptionID with
    | GoOutcome.ok m =>
      (decodeAll decode topicURL subscriptionID rest).map (fun ms => m :: ms)
    | _ => none

/-- performSubscribeRequest (client.go): GET `<topicURL>/json`, apply the
options in order (first failure aborts), send; a transport error or non-200
status fails with the transport error or the trimmed capped body; on 200 run
the scan loop. Returns the messages sent to the sink and how the attempt
ended. -/
def performSubscribeRequest (decode : String → DecodeOut)
    (topicURL subscriptionID : String) (options : List ReqOption)
    (net : Request → NetResult) : List Message × StreamEnd :=
  let streamURL := topicURL ++ "/json"
  let req : Request := { method := "GET", url := streamURL, headers := [], query := [] }
  match applyOptions options req with
  | Except.error e => ([], StreamEnd.failed e)
  | Except.ok req' =>
    match net req' with
    | NetResult.err e => ([], StreamEnd.failed e)
    | NetResult.ok resp =>
      if resp.statusCode ≠ 200 then
        match resp.bodyReadErr with
        | some e => ([], StreamEnd.failed e)
        | none => ([], StreamEnd.failed (trimSpace (capBody resp.body)))
      else
        runStream decode topicURL subscriptionID resp.lines

/-- The response-handling tail of PublishReader (client.go, lines 164-175):
read the body capped at maxResponseBytes (a read error is returned as is), a
non-200 status yields an error with the trimmed capped body text, a 200 status
decodes the capped body via toMessage stamped with the topic URL and an empty
subscription id. -/
def publishRespond (decode : String → DecodeOut) (topicURL : String)
    (resp : Response) : GoOutcome String Message :=
  match resp.bodyReadErr with
  | some e => GoOutcome.err e
  | none =>
    let b := capBody resp.body
    if resp.statusCode ≠ 200 then GoOutcome.err (trimSpace b)
    else toMessage decode b topicURL ""

/-- PublishReader (client.go): resolve the topic URL, build a POST request,
apply the options in order (first failure aborts before any network I/O),
send, and handle the response via publishRespond. -/
def PublishReader (decode : String → DecodeOut) (c : Config) (topic : String)
    (options : List ReqOption) (net : Request → NetResult) :
    GoOutcome String Message :=
  match expandTopicURL c topic with
  | Except.error e => GoOutcome.err e
  | Except.ok topicURL =>
    let req : Request := { method := "POST", url := topicURL, headers := [], query := [] }
    match applyOptions options req with
    | Except.error e => GoOutcome.err e
    | Except.ok req' =>
      match net req' with
      | NetResult.err e => GoOutcome.err e
      | NetResult.ok resp => publishRespond decode topicURL resp

/-- Modelled from the spec: `WithPoll`, the poll-mode subscribe option, lives
in options.go which is not among the sources; the spec describes it as setting
the poll-only flag query parameter on the request, never failing. -/
def WithPoll : ReqOption :=
  fun req => Except.ok { req with query := req.query ++ [("poll", "1")] }

/-- Result of Poll (client.go): the collected messages together with the
terminal error, or a crash of the process if the stream goroutine panicked. -/
inductive PollResult where
  | ret : List Message → Option String → PollResult
  | panicked : PollResult
deriving Repr, DecidableEq

/-- Poll (client.go): resolve the topic URL, append WithPoll to the supplied
options, run performSubscribeRequest once with an empty subscription id,
collect every forwarded message in arrival order, and return them together
with the attempt's terminal error. -/
def Poll (decode : String → DecodeOut) (c : Config) (topic : String)
    (options : List ReqOption) (net : Request → NetResult) : PollResult :=
  match expandTopicURL c topic with
  | Except.error e => PollResult.ret [] (some e)
  | Except.ok topicURL =>
    match performSubscribeRequest decode topicURL "" (options ++ [WithPoll]) net with
    | (ms, StreamEnd.normal) => PollResult.ret ms none
    | (ms, StreamEnd.failed e) => PollResult.ret ms (some e)
    | (_, StreamEnd.panicked) => PollResult.panicked

/-- A registry entry (struct `subscription`, client.go); its cancellation
handle is modelled by membership in `ClientState.cancelled`. -/
structure Subscription where
  ID : String
  topicURL : String
deriving Repr, DecidableEq

/-- The mutable state of a Client that Unsubscribe touches: the registry map
and the set of subscription ids whose cancellation handle has been invoked. -/
structure ClientState where
  subscriptions : List (String × Subscription)
  cancelled : List String
deriving Repr, DecidableEq

/-- Lookup in the registry map. -/
def lookupSub (st : ClientState) (id : String) : Option Subscription :=
  (st.subscriptions.find? (fun p => p.1 = id)).map (fun p => p.2)

/-- Unsubscribe (client.go): if the id is unknown, return leaving the state
unchanged; otherwise delete the registry entry and invoke its cancellation
handle. -/
def Unsubscribe (st : ClientState) (id : String) : ClientState :=
  match lookupSub st id with
  | none => st
  | some _ =>
    { subscriptions := st.subscriptions.filter (fun p => p.1 ≠ id)
      cancelled := id :: st.cancelled }

/-- retryDelaySeconds (client.go): the fixed delay of `time.After(10 * time.Second)`
between connection attempts. -/
def retryDelaySeconds : Nat := 10

/-- Outcome of one performSubscribeRequest attempt as the reconnect loop sees
it: returned nil, or returned an error. -/
inductive Outcome where
  | ok : Outcome
  | failed : String → Outcome
deriving Repr, DecidableEq

/-- Observable events of the reconnect loop. -/
inductive LoopEvent where
  | attempt : Outcome → LoopEvent
  | logWarn : String → LoopEvent
  | wait : Nat → LoopEvent
  | exited : LoopEvent
deriving Repr, DecidableEq

/-- handleSubscribeConnLoop (client.go) as a trace over a script: entry `i` of
the script gives the outcome of the `i`-th connection attempt and whether the
cancellation (`ctx.Done()`) case of the select fires at the following waiting
boundary. Each iteration performs an attempt, logs a warning if it failed,
then either exits (cancellation observed) or sleeps the fixed delay and loops.
An exhausted script means the loop is still running. -/
def handleSubscribeConnLoop : List (Outcome × Bool) → List LoopEvent
  | [] => []
  | (o, cancelledHere) :: rest =>
    LoopEvent.attempt o ::
      ((match o with
        | Outcome.failed e => [LoopEvent.logWarn e]
        | Outcome.ok => []) ++
        (if cancelledHere then [LoopEvent.exited]
         else LoopEvent.wait retryDelaySeconds ::
           handleSubscribeConnLoop rest))

/-- Control skeleton of a loop event: log lines erased, attempt payloads
erased. -/
inductive SkelEvent where
  | attempted : SkelEvent
  | waited : Nat → SkelEvent
  | exited : SkelEvent
deriving Repr, DecidableEq

/-- Project one loop event onto the control skeleton (log lines dropped). -/
def skelOf : LoopEvent → Option SkelEvent
  | LoopEvent.attempt _ => some SkelEvent.attempted
  | LoopEvent.logWarn _ => none
  | LoopEvent.wait n => some (SkelEvent.waited n)
  | LoopEvent.exited => some SkelEvent.exited

/-- Control skeleton of a trace. -/
def skeleton (tr : List LoopEvent) : List SkelEvent :=
  tr.filterMap skelOf

/-- Whether a loop event is a connection attempt. -/
def isAttempt : LoopEvent → Bool
  | LoopEvent.attempt _ => true
  | _ => false

/-- The forwarding test of the scan loop: the decoded message's event kind is
MessageEvent. -/
def isMessageEvent (m : Message) : Bool :=
  decide (m.Event = MessageEvent)

/-- Auxiliary: a successfully returned message carries exactly the stamped
topic URL, subscription id, and raw line. -/
theorem toMessage_stamps (decode : String → DecodeOut) (s t id : String)
    (m : Message) (h : toMessage decode s t id = GoOutcome.ok m) :
    m.TopicURL = t ∧ m.SubscriptionID = id ∧ m.Raw = s := by
  unfold toMessage at h
  cases hd : decode s with
  | err e => rw [hd] at h; cases h
  | nilPtr => rw [hd] at h; cases h
  | val m0 =>
    rw [hd] at h
    cases h
    exact ⟨rfl, rfl, rfl⟩

/-- Auxiliary: toMessage fails with a decode error exactly when the underlying
JSON decode does. -/
theorem toMessage_err_iff (decode : String → DecodeOut) (s t id e : String) :
    toMessage decode s t id = GoOutcome.err e ↔ decode s = DecodeOut.err e := by
  unfold toMessage
  cases hd : decode s <;> simp

/-- Auxiliary: the messages the scan loop forwards are exactly the
MessageEvent-filtered decoded leading run, in order. -/
theorem runStream_fst_eq (decode : String → DecodeOut) (t id : String) :
    ∀ lines : List String,
      (runStream decode t id lines).1 =
        (decodedLeading decode t id lines).filter isMessageEvent
  | [] => rfl
  | line :: rest => by
    unfold runStream decodedLeading
    cases h : toMessage decode line t id with
    | err e => simp
    | panic => simp
    | ok m =>
      have ih := runStream_fst_eq decode t id rest
      by_cases hm : m.Event = MessageEvent
      · simp [hm, isMessageEvent, List.filter_cons, ih]
      · simp [hm, isMessageEvent, List.filter_cons, ih]

/-- Auxiliary: when every line decodes, the scan loop forwards the
MessageEvent-filtered messages and ends normally. -/
theorem runStream_of_decodeAll (decode : String → DecodeOut) (t id : String) :
    ∀ (lines : List String) (ms : List Message),
      decodeAll decode t id lines = some ms →
      runStream decode t id lines = (ms.filter isMessageEvent, StreamEnd.normal)
  | [], ms, h => by
    simp [decodeAll] at h
    subst h
    rfl
  | line :: rest, ms, h => by
    unfold decodeAll at h
    cases htm : toMessage decode line t id with
    | err e => rw [htm] at h; cases h
    | panic => rw [htm] at h; cases h
    | ok m =>
      rw [htm] at h
      cases hrest : decodeAll decode t id rest with
      | none => rw [hrest] at h; cases h
      | some ms' =>
        rw [hrest] at h
        simp only [Option.map_some', Option.some.injEq] at h
        subst h
        have ih := runStream_of_decodeAll decode t id rest ms' hrest
        unfold runStream
        rw [htm]
        by_cases hm : m.Event = MessageEvent
        · simp [hm, isMessageEvent, List.filter_cons, ih]
        · simp [hm, isMessageEvent, List.filter_cons, ih]

/-- Auxiliary: a decode error aborts the scan loop at the failing line: the
messages forwarded are exactly those of the decoded lines before it, the
attempt ends with that error, and the lines after the failing one are never
examined. -/
theorem runStream_append_decode_err (decode : String → DecodeOut) (t id : String) :
    ∀ (pre : List String) (ms : List Message) (line e : String)
      (rest : List String),
      decodeAll decode t id pre = some ms →
      decode line = DecodeOut.err e →
      runStream decode t id (pre ++ line :: rest) =
        (ms.filter isMessageEvent, StreamEnd.failed e)
  | [], ms, line, e, rest, hpre, hline => by
    simp [decodeAll] at hpre
    subst hpre
    show runStream decode t id (line :: rest) = _
    unfold runStream
    simp [toMessage, hline]
  | l :: pre', ms, line, e, rest, hpre, hline => by
    unfold decodeAll at hpre
    cases htm : toMessage decode l t id with
    | err e' => rw [htm] at hpre; cases hpre
    | panic => rw [htm] at hpre; cases hpre
    | ok m =>
      rw [htm] at hpre
      cases hrest : decodeAll decode t id pre' with
      | none => rw [hrest] at hpre; cases hpre
      | some ms' =>
        rw [hrest] at hpre
        simp only [Option.map_some', Option.some.injEq] at hpre
        subst hpre
        have ih :=
          runStream_append_decode_err decode t id pre' ms' line e rest hrest hline
        show runStream decode t id (l :: (pre' ++ line :: rest)) = _
        unfold runStream
        rw [htm]
        by_cases hm : m.Event = MessageEvent
        · simp [hm, isMessageEvent, List.filter_cons, ih]
        · simp [hm, isMessageEvent, List.filter_cons, ih]

/-- Auxiliary: if the options before `bad` succeed and `bad` fails, the whole
option application fails with bad's error, whatever options follow. -/
theorem applyOptions_append_err :
    ∀ (pre : List ReqOption) (req r : Request),
      applyOptions pre req = Except.ok r →
      ∀ (bad : ReqOption) (e : String) (post : List ReqOption),
        bad r = Except.error e →
        applyOptions (pre ++ bad :: post) req = Except.error e
  | [], req, r, h, bad, e, post, hbad => by
    simp [applyOptions] at h
    subst h
    simp [applyOptions, hbad]
  | o :: pre', req, r, h, bad, e, post, hbad => by
    unfold applyOptions at h
    cases ho : o req with
    | error e' => rw [ho] at h; cases h
    | ok req' =>
      rw [ho] at h
      show applyOptions (o :: (pre' ++ bad :: post)) req = Except.error e
      unfold applyOptions
      rw [ho]
      exact applyOptions_append_err pre' req' r h bad e post hbad

/-- JSON line of the spec's open event example. -/
def openLine : String := "\x7b\"event\":\"open\"\x7d"

/-- JSON line of the spec's keepalive event example. -/
def keepaliveLine : String := "\x7b\"event\":\"keepalive\"\x7d"

/-- JSON line of the spec's message event example. -/
def msgLine : String :=
  "\x7b\"event\":\"message\",\"id\":\"1\",\"topic\":\"t\",\"message\":\"hi\"\x7d"

/-- A second message event line used in witnesses. -/
def msgLine2 : String :=
  "\x7b\"event\":\"message\",\"id\":\"2\",\"topic\":\"t\",\"message\":\"bye\"\x7d"

/-- Concrete instance of the JSON decoder on the example lines, behaving as Go
encoding/json does: the example objects decode onto the zero value,
unrecognised text is a decode error, and the document null yields the nil
pointer without an error. -/
def exampleDecode : String → DecodeOut := fun s =>
  if s = openLine then DecodeOut.val { zeroMessage with Event := "open" }
  else if s = keepaliveLine then
    DecodeOut.val { zeroMessage with Event := "keepalive" }
  else if s = msgLine then
    DecodeOut.val
      { zeroMessage with Event := "message", ID := "1", Topic := "t", Message := "hi" }
  else if s = msgLine2 then
    DecodeOut.val
      { zeroMessage with Event := "message", ID := "2", Topic := "t", Message := "bye" }
  else if s = "null" then DecodeOut.nilPtr
  else DecodeOut.err "invalid character looking for beginning of value"

/-- Concrete 200 response streaming the spec's three example lines. -/
def exampleResponse : Response :=
  { statusCode := 200, body := "", bodyReadErr := none
    lines := [openLine, keepaliveLine, msgLine], scanErr := none }

/-- Network model answering every request with exampleResponse. -/
def exampleNet : Request → NetResult := fun _ => NetResult.ok exampleResponse

/-- C3: topic URL resolution applies its rules in order: a topic beginning
with an explicit scheme is returned unchanged; otherwise a topic containing a
slash is returned prefixed with the https scheme; otherwise a topic matching
the 1-to-64-character identifier pattern of letters, digits, hyphen and
underscore is appended to the default host; any other topic fails with an
invalid-topic-name error. The resolver is a pure function of its inputs. -/
theorem expandTopicURL_resolution_rules (c : Config) (topic : String) :
    ((goStartsWith topic "http://" = true ∨ goStartsWith topic "https://" = true) →
        expandTopicURL c topic = Except.ok topic) ∧
    (goStartsWith topic "http://" = false → goStartsWith topic "https://" = false →
      goContainsChar topic '/' = true →
        expandTopicURL c topic = Except.ok ("https://" ++ topic)) ∧
    (goStartsWith topic "http://" = false → goStartsWith topic "https://" = false →
      goContainsChar topic '/' = false → topicRegexMatch topic = true →
        expandTopicURL c topic = Except.ok (c.DefaultHost ++ "/" ++ topic)) ∧
    (goStartsWith topic "http://" = false → goStartsWith topic "https://" = false →
      goContainsChar topic '/' = false → topicRegexMatch topic = false →
        expandTopicURL c topic = Except.error ("invalid topic name: " ++ topic)) := by
  refine ⟨?_, ?_, ?_, ?_⟩
  · rintro (h | h) <;> simp [expandTopicURL, h]
  · intro h1 h2 h3
    simp [expandTopicURL, h1, h2, h3]
  · intro h1 h2 h3 h4
    simp [expandTopicURL, h1, h2, h3, h4]
  · intro h1 h2 h3 h4
    simp [expandTopicURL, h1, h2, h3, h4]

/-- C3 witness: the spec's resolution examples, obtained from the rule
theorem at concrete inputs. -/
theorem expandTopicURL_resolution_rules_witness :
    expandTopicURL NewConfig "mytopic" = Except.ok "https://ntfy.sh/mytopic" ∧
      expandTopicURL NewConfig "myhost.lan/mytopic" =
        Except.ok "https://myhost.lan/mytopic" ∧
      expandTopicURL NewConfig "https://x.example/y" =
        Except.ok "https://x.example/y" ∧
      expandTopicURL NewConfig "bad topic!" =
        Except.error "invalid topic name: bad topic!" :=
  ⟨(expandTopicURL_resolution_rules NewConfig "mytopic").2.2.1 rfl rfl rfl rfl,
    (expandTopicURL_resolution_rules NewConfig "myhost.lan/mytopic").2.1 rfl rfl rfl,
    (expandTopicURL_resolution_rules NewConfig "https://x.example/y").1 (Or.inr rfl),
    (expandTopicURL_resolution_rules NewConfig "bad topic!").2.2.2 rfl rfl rfl rfl⟩

/-- C9: contrary to the claim, the message decoder is not total: on the input
line "null" — a valid JSON document, so no decode error is reported — Go's
json decoding leaves the destination pointer nil, and the subsequent stamping
assignment dereferences nil, so toMessage panics instead of returning a
Message or a decode error. -/
theorem toMessage_panics_on_null (decode : String → DecodeOut)
    (topicURL subscriptionID : String) (h : decode "null" = DecodeOut.nilPtr) :
    toMessage decode "null" topicURL subscriptionID = GoOutcome.panic := by
  simp [toMessage, h]

/-- C9 witness: the panic at the concrete failing input, with the documented
decoder behaviour on the JSON document null. -/
theorem toMessage_panics_on_null_witness :
    toMessage exampleDecode "null" "https://ntfy.sh/t" "sub1" = GoOutcome.panic :=
  toMessage_panics_on_null exampleDecode "https://ntfy.sh/t" "sub1" rfl

/-- C1: on a subscribe/poll attempt whose options succeed and whose request
yields a status-200 response, the messages forwarded to the sink are exactly
the decoded lines whose event kind is MessageEvent, in stream order; decoded
lines of every other event kind are not forwarded. -/
theorem performSubscribeRequest_forwards_exactly_message_events
    (decode : String → DecodeOut) (topicURL subscriptionID : String)
    (options : List ReqOption) (net : Request → NetResult)
    (req' : Request) (resp : Response)
    (hopt : applyOptions options
        { method := "GET", url := topicURL ++ "/json", headers := [], query := [] } =
      Except.ok req')
    (hnet : net req' = NetResult.ok resp)
    (hstatus : resp.statusCode = 200) :
    (performSubscribeRequest decode topicURL subscriptionID options net).1 =
      (decodedLeading decode topicURL subscriptionID resp.lines).filter
        isMessageEvent := by
  simp [performSubscribeRequest, hopt, hnet, hstatus, runStream_fst_eq]

/-- C1 witness: the spec's example stream of an open, a keepalive and one
message line yields exactly one delivered Message, with body "hi" and id "1". -/
theorem performSubscribeRequest_forwards_exactly_message_events_witness :
    (performSubscribeRequest exampleDecode "https://ntfy.sh/t" "sub1" [] exampleNet).1 =
      [{ zeroMessage with
          Event := "message", ID := "1", Topic := "t", Message := "hi",
          TopicURL := "https://ntfy.sh/t", SubscriptionID := "sub1",
          Raw := msgLine }] := by
  rw [performSubscribeRequest_forwards_exactly_message_events exampleDecode
    "https://ntfy.sh/t" "sub1" [] exampleNet _ exampleResponse rfl rfl rfl]
  rfl

/-- C4: a line that fails to decode aborts the stream read attempt with that
decode error: the forwarded messages are exactly those decoded from the lines
before the failing one, and the lines after the failing one are never read or
decoded — the result is the same for every tail of the stream. -/
theorem runStream_aborts_on_decode_error (decode : String → DecodeOut)
    (topicURL subscriptionID : String) (pre : List String) (ms : List Message)
    (line e : String)
    (hpre : decodeAll decode topicURL subscriptionID pre = some ms)
    (hline : decode line = DecodeOut.err e) :
    ∀ rest : List String,
      runStream decode topicURL subscriptionID (pre ++ line :: rest) =
        (ms.filter isMessageEvent, StreamEnd.failed e) :=
  fun rest =>
    runStream_append_decode_err decode topicURL subscriptionID pre ms line e rest
      hpre hline

/-- C4 witness: a malformed line after one message aborts the attempt with the
decode error; the message before it stays delivered and the message after it
is never forwarded. -/
theorem runStream_aborts_on_decode_error_witness :
    runStream exampleDecode "https://ntfy.sh/t" "sub1"
        ([msgLine] ++ "\x7bgarbage" :: [msgLine2]) =
      ([{ zeroMessage with
          Event := "message", ID := "1", Topic := "t", Message := "hi",
          TopicURL := "https://ntfy.sh/t", SubscriptionID := "sub1",
          Raw := msgLine }],
        StreamEnd.failed "invalid character looking for beginning of value") :=
  runStream_aborts_on_decode_error exampleDecode "https://ntfy.sh/t" "sub1"
    [msgLine] _ "\x7bgarbage" "invalid character looking for beginning of value"
    rfl rfl [msgLine2]

/-- C10: on a status-200 attempt in which every scanned line decodes, the
attempt returns no error when the scanner stops, whatever terminal error the
scanner recorded: the scanner's error is never inspected, so a mid-stream
transport failure is indistinguishable from a normal server close. -/
theorem performSubscribeRequest_ignores_scanner_error
    (decode : String → DecodeOut) (topicURL subscriptionID : String)
    (options : List ReqOption) (req' : Request) (body : String)
    (bodyReadErr : Option String) (lines : List String) (ms : List Message)
    (scanErr : Option String)
    (hopt : applyOptions options
        { method := "GET", url := topicURL ++ "/json", headers := [], query := [] } =
      Except.ok req')
    (hdec : decodeAll decode topicURL subscriptionID lines = some ms) :
    performSubscribeRequest decode topicURL subscriptionID options
        (fun _ => NetResult.ok
          { statusCode := 200, body := body, bodyReadErr := bodyReadErr
            lines := lines, scanErr := scanErr }) =
      (ms.filter isMessageEvent, StreamEnd.normal) := by
  simp [performSubscribeRequest, hopt,
    runStream_of_decodeAll decode topicURL subscriptionID lines ms hdec]

/-- C10 witness: a stream cut by a transport failure after two well-formed
lines still ends the attempt normally, with the message delivered and no
error. -/
theorem performSubscribeRequest_ignores_scanner_error_witness :
    performSubscribeRequest exampleDecode "https://ntfy.sh/t" "sub1" []
        (fun _ => NetResult.ok
          { statusCode := 200, body := "", bodyReadErr := none
            lines := [openLine, msgLine]
            scanErr := some "read tcp: connection reset by peer" }) =
      ([{ zeroMessage with
          Event := "message", ID := "1", Topic := "t", Message := "hi",
          TopicURL := "https://ntfy.sh/t", SubscriptionID := "sub1",
          Raw := msgLine }],
        StreamEnd.normal) :=
  performSubscribeRequest_ignores_scanner_error exampleDecode "https://ntfy.sh/t"
    "sub1" [] _ "" none [openLine, msgLine] _
    (some "read tcp: connection reset by peer") rfl rfl

/-- C5: Poll forces the poll-mode option onto the end of the supplied options
and runs the stream engine once, collecting the forwarded messages in arrival
order: a normally closing stream returns exactly the collected messages and no
error, and a failing attempt still returns the messages collected before the
failure together with that error. -/
theorem Poll_collects_stream_messages (decode : String → DecodeOut) (c : Config)
    (topic : String) (options : List ReqOption) (net : Request → NetResult)
    (topicURL : String) (hurl : expandTopicURL c topic = Except.ok topicURL) :
    (∀ ms : List Message,
        performSubscribeRequest decode topicURL "" (options ++ [WithPoll]) net =
          (ms, StreamEnd.normal) →
        Poll decode c topic options net = PollResult.ret ms none) ∧
    (∀ (ms : List Message) (e : String),
        performSubscribeRequest decode topicURL "" (options ++ [WithPoll]) net =
          (ms, StreamEnd.failed e) →
        Poll decode c topic options net = PollResult.ret ms (some e)) := by
  constructor
  · intro ms h
    simp [Poll, hurl, h]
  · intro ms e h
    simp [Poll, hurl, h]

/-- C5 witness: polling the example stream returns exactly its one message
event, in order, and no error. -/
theorem Poll_collects_stream_messages_witness :
    Poll exampleDecode NewConfig "mytopic" [] exampleNet =
      PollResult.ret
        [{ zeroMessage with
            Event := "message", ID := "1", Topic := "t", Message := "hi",
            TopicURL := "https://ntfy.sh/mytopic", SubscriptionID := "",
            Raw := msgLine }]
        none :=
  (Poll_collects_stream_messages exampleDecode NewConfig "mytopic" [] exampleNet
      "https://ntfy.sh/mytopic" rfl).1
    [{ zeroMessage with
        Event := "message", ID := "1", Topic := "t", Message := "hi",
        TopicURL := "https://ntfy.sh/mytopic", SubscriptionID := "",
        Raw := msgLine }]
    rfl

/-- C2: on a publish whose options succeed and whose request completes, the
response body is read capped at maxResponseBytes; a non-200 status returns an
error whose message is exactly the trimmed capped body text; a 200 status
returns the capped body decoded by the message decoder, and a message so
returned is stamped with the resolved topic URL, the empty subscription id and
the raw (capped) response text. -/
theorem PublishReader_response_handling (decode : String → DecodeOut)
    (c : Config) (topic : String) (options : List ReqOption)
    (net : Request → NetResult) (topicURL : String) (req' : Request)
    (resp : Response) (hurl : expandTopicURL c topic = Except.ok topicURL)
    (hopt : applyOptions options
        { method := "POST", url := topicURL, headers := [], query := [] } =
      Except.ok req')
    (hnet : net req' = NetResult.ok resp)
    (hread : resp.bodyReadErr = none) :
    (resp.statusCode ≠ 200 →
        PublishReader decode c topic options net =
          GoOutcome.err (trimSpace (capBody resp.body))) ∧
    (resp.statusCode = 200 →
        PublishReader decode c topic options net =
          toMessage decode (capBody resp.body) topicURL "") ∧
    (∀ m : Message,
        toMessage decode (capBody resp.body) topicURL "" = GoOutcome.ok m →
        m.TopicURL = topicURL ∧ m.SubscriptionID = "" ∧ m.Raw = capBody resp.body) := by
  refine ⟨?_, ?_, ?_⟩
  · intro hs
    simp [PublishReader, publishRespond, hurl, hopt, hnet, hread, hs]
  · intro hs
    simp [PublishReader, publishRespond, hurl, hopt, hnet, hread, hs]
  · intro m hm
    exact toMessage_stamps decode (capBody resp.body) topicURL "" m hm

/-- Concrete non-200 response carrying the spec's quota-exceeded body. -/
def quotaResponse : Response :=
  { statusCode := 429, body := "quota exceeded\n", bodyReadErr := none
    lines := [], scanErr := none }

/-- C2 witness: a publish answered with a non-200 status and body
"quota exceeded" (plus a trailing newline) returns an error whose text is
exactly "quota exceeded". -/
theorem PublishReader_response_handling_witness :
    PublishReader exampleDecode NewConfig "mytopic" []
        (fun _ => NetResult.ok quotaResponse) =
      GoOutcome.err "quota exceeded" :=
  ((PublishReader_response_handling exampleDecode NewConfig "mytopic" []
        (fun _ => NetResult.ok quotaResponse) "https://ntfy.sh/mytopic" _
        quotaResponse rfl rfl rfl rfl).1
      (by decide)).trans rfl

/-- An always-failing option, used as a witness input. -/
def badOption : ReqOption := fun _ => Except.error "invalid since parameter"

/-- C6: options are applied one by one in the order supplied, and the first
failing option aborts the call with exactly its error before any network I/O
and without applying any later option: on both the publish and the
subscribe/poll paths the result is that option's error, for every network
behaviour and for every list of options following the failing one. -/
theorem options_first_failure_aborts (decode : String → DecodeOut) (c : Config)
    (topic topicURL subscriptionID : String) (pre post : List ReqOption)
    (bad : ReqOption) (e : String) (rp rs : Request)
    (hurl : expandTopicURL c topic = Except.ok topicURL)
    (hprePub : applyOptions pre
        { method := "POST", url := topicURL, headers := [], query := [] } =
      Except.ok rp)
    (hbadPub : bad rp = Except.error e)
    (hpreSub : applyOptions pre
        { method := "GET", url := topicURL ++ "/json", headers := [], query := [] } =
      Except.ok rs)
    (hbadSub : bad rs = Except.error e) :
    (∀ net : Request → NetResult,
        PublishReader decode c topic (pre ++ bad :: post) net = GoOutcome.err e) ∧
    (∀ net : Request → NetResult,
        performSubscribeRequest decode topicURL subscriptionID
            (pre ++ bad :: post) net =
          ([], StreamEnd.failed e)) := by
  constructor
  · intro net
    have h := applyOptions_append_err pre _ rp hprePub bad e post hbadPub
    simp [PublishReader, hurl, h]
  · intro net
    have h := applyOptions_append_err pre _ rs hpreSub bad e post hbadSub
    simp [performSubscribeRequest, h]

/-- C6 witness: a failing first option makes both the publish call and the
subscribe/poll attempt return its error, a later option notwithstanding. -/
theorem options_first_failure_aborts_witness :
    PublishReader exampleDecode NewConfig "mytopic" [badOption, WithPoll]
        exampleNet =
      GoOutcome.err "invalid since parameter" ∧
      performSubscribeRequest exampleDecode "https://ntfy.sh/mytopic" ""
          [badOption, WithPoll] exampleNet =
        ([], StreamEnd.failed "invalid since parameter") := by
  have h := options_first_failure_aborts exampleDecode NewConfig "mytopic"
    "https://ntfy.sh/mytopic" "" [] [WithPoll] badOption "invalid since parameter"
    _ _ rfl rfl rfl rfl rfl
  exact ⟨h.1 exampleNet, h.2 exampleNet⟩

/-- Auxiliary: a find? over a filter whose test is implied by the search test
finds the same entry as over the original list. -/
theorem find?_filter_of_imp {α : Type} (q r : α → Bool)
    (h : ∀ x, q x = true → r x = true) :
    ∀ l : List α, List.find? q (l.filter r) = List.find? q l
  | [] => rfl
  | x :: l => by
    by_cases hq : q x = true
    · rw [List.filter_cons_of_pos (h x hq), List.find?_cons_of_pos _ hq,
        List.find?_cons_of_pos _ hq]
    · have hq' : ¬ q x = true := hq
      by_cases hr : r x = true
      · rw [List.filter_cons_of_pos hr, List.find?_cons_of_neg _ hq',
          List.find?_cons_of_neg _ hq']
        exact find?_filter_of_imp q r h l
      · rw [List.filter_cons_of_neg hr, List.find?_cons_of_neg _ hq']
        exact find?_filter_of_imp q r h l

/-- C7: Unsubscribe with an id that is not in the registry is a no-op: it
returns leaving the whole state unchanged. With a registered id it removes
exactly that entry and invokes exactly that entry's cancellation handle, while
every other id's registry entry and cancellation state are unchanged. -/
theorem Unsubscribe_registry_spec (st : ClientState) (id : String) :
    (lookupSub st id = none → Unsubscribe st id = st) ∧
    (∀ sub : Subscription, lookupSub st id = some sub →
      lookupSub (Unsubscribe st id) id = none ∧
      (Unsubscribe st id).cancelled = id :: st.cancelled ∧
      (∀ id' : String, id' ≠ id →
        lookupSub (Unsubscribe st id) id' = lookupSub st id' ∧
          (id' ∈ (Unsubscribe st id).cancelled ↔ id' ∈ st.cancelled))) := by
  constructor
  · intro h
    simp [Unsubscribe, h]
  · intro sub h
    have hrm : Unsubscribe st id =
        { subscriptions := st.subscriptions.filter (fun p => p.1 ≠ id)
          cancelled := id :: st.cancelled } := by
      simp [Unsubscribe, h]
    refine ⟨?_, ?_, ?_⟩
    · rw [hrm]
      unfold lookupSub
      simp only [Option.map_eq_none']
      rw [List.find?_eq_none]
      intro p hp
      have hmem := (List.mem_filter.mp hp).2
      simp only [decide_eq_true_eq] at hmem ⊢
      exact hmem
    · rw [hrm]
    · intro id' hne
      constructor
      · have himp : ∀ x : String × Subscription,
            (fun p : String × Subscription => decide (p.1 = id')) x = true →
            (fun p : String × Subscription => decide (p.1 ≠ id)) x = true := by
          intro x hx
          simp only [decide_eq_true_eq] at hx ⊢
          rw [hx]
          exact hne
        rw [hrm]
        unfold lookupSub
        rw [find?_filter_of_imp (fun p : String × Subscription => decide (p.1 = id'))
          (fun p : String × Subscription => decide (p.1 ≠ id)) himp st.subscriptions]
      · rw [hrm]
        simp [List.mem_cons, hne]

/-- Concrete registry state with two live subscriptions, for witnesses. -/
def exSt : ClientState :=
  { subscriptions :=
      [("a", { ID := "a", topicURL := "https://ntfy.sh/a" }),
        ("b", { ID := "b", topicURL := "https://ntfy.sh/b" })]
    cancelled := [] }

/-- C7 witness: removing an unknown id changes nothing; removing "a" empties
its entry, cancels exactly "a", and leaves "b" untouched. -/
theorem Unsubscribe_registry_spec_witness :
    Unsubscribe exSt "zzz" = exSt ∧
      lookupSub (Unsubscribe exSt "a") "a" = none ∧
      (Unsubscribe exSt "a").cancelled = ["a"] ∧
      lookupSub (Unsubscribe exSt "a") "b" = lookupSub exSt "b" := by
  refine ⟨(Unsubscribe_registry_spec exSt "zzz").1 rfl, ?_, ?_, ?_⟩
  · exact ((Unsubscribe_registry_spec exSt "a").2
      { ID := "a", topicURL := "https://ntfy.sh/a" } rfl).1
  · exact ((Unsubscribe_registry_spec exSt "a").2
      { ID := "a", topicURL := "https://ntfy.sh/a" } rfl).2.1
  · exact (((Unsubscribe_registry_spec exSt "a").2
      { ID := "a", topicURL := "https://ntfy.sh/a" } rfl).2.2 "b" (by decide)).1

/-- Auxiliary: in the reconnect loop's trace, every connection attempt after
the first is immediately preceded by the fixed-delay wait. -/
theorem loop_wait_before_attempt :
    ∀ (script : List (Outcome × Bool)) (j : Nat) (o : Outcome),
      (handleSubscribeConnLoop script).get? (j + 1) =
        some (LoopEvent.attempt o) →
      (handleSubscribeConnLoop script).get? j =
        some (LoopEvent.wait retryDelaySeconds)
  | [], j, o, h => by simp [handleSubscribeConnLoop] at h
  | (Outcome.ok, true) :: rest, j, o, h => by
    cases j with
    | zero => simp [handleSubscribeConnLoop] at h
    | succ j' => simp [handleSubscribeConnLoop] at h
  | (Outcome.ok, false) :: rest, j, o, h => by
    cases j with
    | zero => simp [handleSubscribeConnLoop] at h
    | succ j' =>
      cases j' with
      | zero => simp [handleSubscribeConnLoop]
      | succ k =>
        simp only [handleSubscribeConnLoop, List.nil_append, Bool.false_eq_true,
          if_false, List.get?_cons_succ] at h ⊢
        exact loop_wait_before_attempt rest k o h
  | (Outcome.failed e, true) :: rest, j, o, h => by
    cases j with
    | zero => simp [handleSubscribeConnLoop] at h
    | succ j' =>
      cases j' with
      | zero => simp [handleSubscribeConnLoop] at h
      | succ k => simp [handleSubscribeConnLoop] at h
  | (Outcome.failed e, false) :: rest, j, o, h => by
    cases j with
    | zero => simp [handleSubscribeConnLoop] at h
    | succ j' =>
      cases j' with
      | zero => simp [handleSubscribeConnLoop] at h
      | succ j'' =>
        cases j'' with
        | zero => simp [handleSubscribeConnLoop]
        | succ k =>
          simp only [handleSubscribeConnLoop, List.singleton_append,
            Bool.false_eq_true, if_false, List.get?_cons_succ] at h ⊢
          exact loop_wait_before_attempt rest k o h

/-- Auxiliary: control skeleton of one loop iteration. -/
theorem skeleton_loop_cons (o : Outcome) (c : Bool)
    (rest : List (Outcome × Bool)) :
    skeleton (handleSubscribeConnLoop ((o, c) :: rest)) =
      SkelEvent.attempted ::
        (if c then [SkelEvent.exited]
         else SkelEvent.waited retryDelaySeconds ::
           skeleton (handleSubscribeConnLoop rest)) := by
  cases o <;> cases c <;>
    simp [handleSubscribeConnLoop, skeleton, skelOf, List.filterMap_cons,
      List.filterMap_append]

/-- Auxiliary: every failure kind is handled alike: the control skeleton of
the trace depends only on the cancellation flags, not on which attempts
failed, how, or succeeded. -/
theorem skeleton_loop_flags :
    ∀ s₁ s₂ : List (Outcome × Bool), s₁.map Prod.snd = s₂.map Prod.snd →
      skeleton (handleSubscribeConnLoop s₁) = skeleton (handleSubscribeConnLoop s₂)
  | [], [], _ => rfl
  | [], (o, c) :: r, h => by simp at h
  | (o, c) :: r, [], h => by simp at h
  | (o₁, c₁) :: r₁, (o₂, c₂) :: r₂, h => by
    simp only [List.map_cons, List.cons.injEq] at h
    obtain ⟨hc, hr⟩ := h
    rw [skeleton_loop_cons, skeleton_loop_cons, hc,
      skeleton_loop_flags r₁ r₂ hr]

/-- Auxiliary: without cancellation there is no attempt limit: every scripted
attempt is performed. -/
theorem loop_attempt_count :
    ∀ script : List (Outcome × Bool), (∀ p ∈ script, p.2 = false) →
      (handleSubscribeConnLoop script).countP isAttempt = script.length
  | [], _ => rfl
  | (o, c) :: rest, h => by
    have hc : c = false := h (o, c) (List.mem_cons_self _ _)
    subst hc
    have hrest : ∀ p ∈ rest, p.2 = false := fun p hp =>
      h p (List.mem_cons_of_mem _ hp)
    cases o <;>
      simp [handleSubscribeConnLoop, List.countP_cons, List.countP_append,
        isAttempt, loop_attempt_count rest hrest]

/-- Auxiliary: once the cancellation flag fires at a waiting boundary the loop
exits: the rest of the script is never examined. -/
theorem loop_stops_after_cancel :
    ∀ (pre : List (Outcome × Bool)) (o : Outcome)
      (rest : List (Outcome × Bool)),
      handleSubscribeConnLoop (pre ++ (o, true) :: rest) =
        handleSubscribeConnLoop (pre ++ [(o, true)])
  | [], o, rest => by cases o <;> simp [handleSubscribeConnLoop]
  | (o', c) :: pre', o, rest => by
    cases c <;>
      simp [handleSubscribeConnLoop, loop_stops_after_cancel pre' o rest]

/-- C8: the reconnect loop (i) never begins an attempt after the first without
the fixed retry delay immediately before it in the trace, whether the previous
attempt failed or returned normally; (ii) treats every failure kind alike —
the control skeleton of the trace depends only on the cancellation flags — and
imposes no attempt limit when never cancelled; and (iii) exits once
cancellation is observed at the waiting boundary, never examining what would
have followed. -/
theorem handleSubscribeConnLoop_retry_discipline :
    (∀ (script : List (Outcome × Bool)) (j : Nat) (o : Outcome),
        (handleSubscribeConnLoop script).get? (j + 1) =
          some (LoopEvent.attempt o) →
        (handleSubscribeConnLoop script).get? j =
          some (LoopEvent.wait retryDelaySeconds)) ∧
    (∀ s₁ s₂ : List (Outcome × Bool), s₁.map Prod.snd = s₂.map Prod.snd →
        skeleton (handleSubscribeConnLoop s₁) =
          skeleton (handleSubscribeConnLoop s₂)) ∧
    (∀ script : List (Outcome × Bool), (∀ p ∈ script, p.2 = false) →
        (handleSubscribeConnLoop script).countP isAttempt = script.length) ∧
    (∀ (pre : List (Outcome × Bool)) (o : Outcome)
        (rest : List (Outcome × Bool)),
        handleSubscribeConnLoop (pre ++ (o, true) :: rest) =
          handleSubscribeConnLoop (pre ++ [(o, true)])) :=
  ⟨loop_wait_before_attempt, skeleton_loop_flags, loop_attempt_count,
    loop_stops_after_cancel⟩

/-- C8 witness: on a concrete script, the second attempt is preceded by the
10-second wait; a failing and a succeeding script with the same flags have the
same control skeleton; an uncancelled two-entry script performs two attempts;
and a script cancelled at its second boundary ignores everything after it. -/
theorem handleSubscribeConnLoop_retry_discipline_witness :
    (handleSubscribeConnLoop [(Outcome.ok, false), (Outcome.failed "boom", true)]).get? 1 =
        some (LoopEvent.wait retryDelaySeconds) ∧
      skeleton (handleSubscribeConnLoop
          [(Outcome.failed "timeout", false), (Outcome.ok, true)]) =
        skeleton (handleSubscribeConnLoop
          [(Outcome.ok, false), (Outcome.failed "refused", true)]) ∧
      (handleSubscribeConnLoop
          [(Outcome.ok, false), (Outcome.failed "boom", false)]).countP isAttempt = 2 ∧
      handleSubscribeConnLoop
          [(Outcome.ok, false), (Outcome.failed "boom", true), (Outcome.ok, false)] =
        handleSubscribeConnLoop [(Outcome.ok, false), (Outcome.failed "boom", true)] :=
  ⟨handleSubscribeConnLoop_retry_discipline.1
      [(Outcome.ok, false), (Outcome.failed "boom", true)] 1
      (Outcome.failed "boom") (by decide),
    handleSubscribeConnLoop_retry_discipline.2.1
      [(Outcome.failed "timeout", false), (Outcome.ok, true)]
      [(Outcome.ok, false), (Outcome.failed "refused", true)] rfl,
    handleSubscribeConnLoop_retry_discipline.2.2.1
      [(Outcome.ok, false), (Outcome.failed "boom", false)] (by decide),
    handleSubscribeConnLoop_retry_discipline.2.2.2
      [(Outcome.ok, false)] (Outcome.failed "boom") [(Outcome.ok, false)]⟩
